import Mathlib

/-!
Shallow embedding of `src/python/main.py` (PPmaker): a Flask service with two
handlers, `extract_powerpoint` and `update_powerpoint`, built on the external
python-pptx document object model.

Modelling conventions:
* A shape (python-pptx shape on a slide) is a `Shape` record carrying its
  placeholder index (`phIdx`, the key used by `slide.placeholders[i]`), whether
  it is the slide's designated title region (`isTitle`, i.e. whether
  `slide.shapes.title` is this shape), whether it has a text frame, and its text.
  `slide.shapes.title` returns the first title shape, so object identity of the
  title within `slide.shapes` is modelled by the index of the first
  `isTitle` shape in the list.
* A presentation (`Document`) is its ordered slide list plus its layout gallery
  (`prs.slide_layouts`). A layout is the list of placeholder shapes that
  `slides.add_slide(layout)` clones onto the new slide.
* Python exceptions are modelled with `Except String`; an exception raised
  inside a handler's `try` block becomes `.errorJson` (the `jsonify({"error":
  str(e)}), 500` response), one raised before the `try` block escapes the
  handler as `.uncaught`.
* `base64.b64decode` and `Presentation(io.BytesIO(...))` belong to external
  libraries; handlers are parametrised over them as fallible functions
  (`String → Except String β`, `β → Except String Document`); a `.error`
  result models the library raising (e.g. `binascii.Error` on malformed
  base64).
-/

namespace PPmaker

/-- A shape on a slide (python-pptx shape / placeholder). -/
structure Shape where
  phIdx : Nat
  isTitle : Bool
  hasTextFrame : Bool
  text : String
  deriving Repr, DecidableEq

/-- A slide: its ordered shape collection (`slide.shapes`). -/
structure Slide where
  shapes : List Shape
  deriving Repr, DecidableEq

/-- A slide layout: the placeholder shapes cloned onto slides created from it. -/
structure Layout where
  placeholders : List Shape
  deriving Repr, DecidableEq

/-- A presentation: ordered slides plus the layout gallery (`prs.slide_layouts`). -/
structure Document where
  slides : List Slide
  layouts : List Layout
  deriving Repr, DecidableEq

/-- Index in `shapes` of the shape returned by `slide.shapes.title`
(the first title-typed placeholder), `none` when the slide has no title shape. -/
def findTitleIdx : List Shape → Option Nat
  | [] => none
  | sh :: rest => if sh.isTitle then some 0 else (findTitleIdx rest).map (· + 1)

/-- `slide.shapes.title.text if slide.shapes.title else ""` (main.py line 26). -/
def slideTitleText (s : Slide) : String :=
  match s.shapes.find? (fun sh => sh.isTitle) with
  | some sh => sh.text
  | none => ""

/-- The list comprehension of main.py line 27, iterated with the running index
`i` so that `shape is not slide.shapes.title` is the test `some i ≠ tIdx`:
`[shape.text for shape in slide.shapes if shape.has_text_frame and shape is not slide.shapes.title]`. -/
def contentFrom : List Shape → Option Nat → Nat → List String
  | [], _, _ => []
  | sh :: rest, tIdx, i =>
    if sh.hasTextFrame && !(tIdx == some i) then
      sh.text :: contentFrom rest tIdx (i + 1)
    else
      contentFrom rest tIdx (i + 1)

/-- The `content` field built for one slide by `extract_powerpoint`. -/
def slideContent (s : Slide) : List String :=
  contentFrom s.shapes (findTitleIdx s.shapes) 0

/-- One entry of the `slides` array returned by `extract_powerpoint`. -/
structure SlideSummary where
  slide_number : Nat
  title : String
  content : List String
  deriving Repr, DecidableEq

/-- The `for i, slide in enumerate(prs.slides)` loop of `extract_powerpoint`
(main.py lines 23-29), with `i` the running `enumerate` counter. -/
def extractFrom : Nat → List Slide → List SlideSummary
  | _, [] => []
  | i, s :: rest =>
    { slide_number := i + 1, title := slideTitleText s, content := slideContent s }
      :: extractFrom (i + 1) rest

/-- The slide summaries `extract_powerpoint` produces for a parsed document. -/
def extractSlides (prs : List Slide) : List SlideSummary :=
  extractFrom 0 prs

/-- One outline entry (`slide_data`): a dict with optional keys, `none`
modelling an absent key. -/
structure SlideData where
  title : Option String
  bullets : Option (List String)
  content : Option (List String)
  deriving Repr, DecidableEq

/-- Python truthiness of a guarded optional list field, as in
`if "bullets" in slide_data and slide_data["bullets"]`: the key is present and
its list is non-empty. -/
def hasNonEmpty : Option (List String) → Bool
  | some (_ :: _) => true
  | _ => false

/-- main.py lines 92-98: content lines come from `bullets` when present and
non-empty, else from `content` when present and non-empty, else stay empty. -/
def contentLines (sd : SlideData) : List String :=
  if hasNonEmpty sd.bullets then sd.bullets.getD []
  else if hasNonEmpty sd.content then sd.content.getD []
  else []

/-- main.py lines 69-77: the gallery index the layout-selection chain attempts
for a gallery of `n` layouts. The final arm mirrors
`prs.slide_layouts[6] if len(prs.slide_layouts) > 6 else prs.slide_layouts[0]`. -/
def selectLayoutIdx (n : Nat) : Nat :=
  if n > 1 then 1
  else if n > 0 then 0
  else if n > 6 then 6 else 0

/-- The subscript `prs.slide_layouts[selectLayoutIdx _]`; an out-of-range index
raises IndexError, caught at the handler boundary. -/
def selectLayout (layouts : List Layout) : Except String Layout :=
  match layouts.get? (selectLayoutIdx layouts.length) with
  | some l => .ok l
  | none => .error "IndexError: list index out of range"

/-- Assigning `.text` on the shape object a collection lookup returned:
replace the first shape satisfying `p` by the same shape carrying text `t`. -/
def setFirstText (p : Shape → Bool) (t : String) : List Shape → List Shape
  | [] => []
  | sh :: rest =>
    if p sh then { sh with text := t } :: rest else sh :: setFirstText p t rest

/-- main.py lines 80-87 for one outline entry: `slides.add_slide(layout)`
clones the layout placeholders onto the new slide, then
`if "title" in slide_data and slide.shapes.title:` sets the title shape text
verbatim. -/
def titledShapes (layout : Layout) (sd : SlideData) : List Shape :=
  match sd.title with
  | some t =>
    if (layout.placeholders.find? (fun sh => sh.isTitle)).isSome then
      setFirstText (fun sh => sh.isTitle) t layout.placeholders
    else layout.placeholders
  | none => layout.placeholders

/-- Continuation of main.py lines 88-101: when the slide has more than one
placeholder, `slide.placeholders[1]` is looked up (KeyError when no
placeholder has idx 1) and receives the computed lines joined with newline
separators when any were computed. -/
def buildSlide (layout : Layout) (sd : SlideData) : Except String Slide :=
  let shapes1 : List Shape := titledShapes layout sd
  if shapes1.length > 1 then
    match shapes1.find? (fun sh => sh.phIdx == 1) with
    | none => .error "KeyError: no placeholder on this slide with idx == 1"
    | some _ =>
      if (contentLines sd).isEmpty then .ok ⟨shapes1⟩
      else .ok ⟨setFirstText (fun sh => sh.phIdx == 1)
        (String.intercalate "\n" (contentLines sd)) shapes1⟩
  else .ok ⟨shapes1⟩

/-- The `for i, slide_data in enumerate(update_instructions["slides"])` loop
(main.py lines 65-101): slides are built and appended in order; an exception
aborts the whole request. -/
def synthSlides (layouts : List Layout) : List SlideData → Except String (List Slide)
  | [] => .ok []
  | sd :: rest => do
    let layout ← selectLayout layouts
    let s ← buildSlide layout sd
    let ss ← synthSlides layouts rest
    .ok (s :: ss)

/-- Python `str.strip()`: drop leading and trailing whitespace. -/
def pyStrip (s : String) : String :=
  ⟨((s.data.dropWhile Char.isWhitespace).reverse.dropWhile Char.isWhitespace).reverse⟩

/-- main.py line 44: `if original_file and original_file != "null" and
original_file.strip():`. `data.get("original_file")` yields `none` for an
absent key or a JSON null; a string is truthy when non-empty. -/
def isUpdateModeField : Option String → Bool
  | none => false
  | some s => !(s == "") && !(s == "null") && !(pyStrip s == "")

/-- The spec wording for mode selection, kept for comparison with the code:
update mode when the existing-document field is present, non-null and
non-blank (an absent key and a JSON null both surface as `none`). -/
def specUpdateMode : Option String → Bool
  | none => false
  | some s => !(pyStrip s == "")

/-- The parsed `update_instructions` object; `slides` is `none` when that key
is absent. -/
structure Instructions where
  slides : Option (List SlideData)
  deriving Repr, DecidableEq

/-- JSON body of POST /update-powerpoint; `none` marks an absent key. -/
structure UpdateBody where
  original_file : Option String
  update_instructions : Option Instructions
  file_name : Option String

/-- JSON body of POST /extract-powerpoint; `none` marks an absent key. -/
structure ExtractBody where
  file_data : Option String

/-- main.py line 40: `filename = data.get("file_name", "presentation.pptx")`. -/
def outputFilename (b : UpdateBody) : String :=
  b.file_name.getD "presentation.pptx"

/-- Outcome of one handler call: a successful response, the JSON
`jsonify(\x7b"error": str(e)\x7d), 500` payload, or an exception raised before
the try block that escapes the handler. -/
inductive HandlerResult (α : Type) where
  | ok : α → HandlerResult α
  | errorJson : String → HandlerResult α
  | uncaught : String → HandlerResult α
  deriving DecidableEq

/-- main.py lines 56-59: create mode conditionally removes the default slide,
dropping its relationship and deleting entry 0 of the slide id list. -/
def removeDefaultSlide (d : Document) : Document :=
  if d.slides.length > 0 then { d with slides := d.slides.tail } else d

/-- Body of the `update_powerpoint` try block (main.py lines 43-116): mode
selection, optional slide synthesis, serialisation. `decode` stands for
`Presentation(io.BytesIO(base64.b64decode(...)))` applied to the supplied
field; `newDoc` stands for the external `Presentation()` constructor result. -/
def updateCore (decode : String → Except String Document) (newDoc : Document)
    (ofile : Option String) (instr : Instructions) : Except String Document := do
  let prs ←
    if isUpdateModeField ofile then decode (ofile.getD "")
    else .ok (removeDefaultSlide newDoc)
  match instr.slides with
  | some sds => do
      let newSlides ← synthSlides prs.layouts sds
      .ok { prs with slides := prs.slides ++ newSlides }
  | none => .ok prs

/-- The `update_powerpoint` handler (main.py lines 36-121). The subscript
`data["update_instructions"]` runs before the try block, so a missing key
raises an uncaught KeyError; inside the try every exception becomes the JSON
error payload. Success carries the document and the download filename. -/
def update_powerpoint (decode : String → Except String Document) (newDoc : Document)
    (body : UpdateBody) : HandlerResult (Document × String) :=
  match body.update_instructions with
  | none => .uncaught "KeyError: update_instructions"
  | some instr =>
    match updateCore decode newDoc body.original_file instr with
    | .ok doc => .ok (doc, outputFilename body)
    | .error e => .errorJson e

/-- The `extract_powerpoint` handler (main.py lines 15-33). Both the subscript
`data["file_data"]` and `base64.b64decode` run before the try block, so a
missing key or a base64 failure (`binascii.Error` on malformed input) escapes
uncaught; `parse` stands for `Presentation(io.BytesIO(...))` inside the try. -/
def extract_powerpoint {β : Type} (b64decode : String → Except String β)
    (parse : β → Except String Document) (body : ExtractBody) :
    HandlerResult (List SlideSummary) :=
  match body.file_data with
  | none => .uncaught "KeyError: file_data"
  | some s =>
    match b64decode s with
    | .error e => .uncaught e
    | .ok bytes =>
      match parse bytes with
      | .error e => .errorJson e
      | .ok prs => .ok (extractSlides prs.slides)

/-- A title placeholder prototype (placeholder idx 0, title-typed). -/
def titlePh : Shape := ⟨0, true, true, ""⟩

/-- A body placeholder prototype (placeholder idx 1, not a title). -/
def bodyPh : Shape := ⟨1, false, true, ""⟩

/-- Modelled from the spec: the default template layout gallery of the external
`Presentation()` constructor (missing from src/, it lives in python-pptx). The
spec fixes what the code relies on: index 1 is the title+content layout (title
placeholder at idx 0 plus a body placeholder at idx 1), index 6 is blank, and
the gallery has more than 6 layouts. Placeholder texts start empty. -/
def defaultTemplateLayouts : List Layout :=
  [ ⟨[titlePh, bodyPh]⟩, ⟨[titlePh, bodyPh]⟩, ⟨[titlePh, bodyPh]⟩,
    ⟨[titlePh, bodyPh]⟩, ⟨[titlePh, bodyPh]⟩, ⟨[titlePh, bodyPh]⟩,
    ⟨[]⟩, ⟨[titlePh, bodyPh]⟩, ⟨[titlePh, bodyPh]⟩, ⟨[titlePh, bodyPh]⟩,
    ⟨[titlePh, bodyPh]⟩ ]

/-- Modelled from the spec: `Presentation()` with no argument — the external
empty-document constructor always seeds one default slide (spec section 4.2
step 1) and carries the default template gallery. The seeded slide `d` is left
arbitrary and quantified in the theorems that use it. -/
def defaultNewDoc (d : Slide) : Document :=
  { slides := [d], layouts := defaultTemplateLayouts }

/-! Helper lemmas about the embedded operations. -/

theorem length_setFirstText (p : Shape → Bool) (t : String) (l : List Shape) :
    (setFirstText p t l).length = l.length := by
  induction l with
  | nil => rfl
  | cons sh rest ih =>
    simp only [setFirstText]
    split <;> simp [ih]

theorem find?_isSome_setFirstText (p q : Shape → Bool) (t : String) (l : List Shape)
    (hq : ∀ sh t2, q { sh with text := t2 } = q sh)
    (h : (l.find? q).isSome) : ((setFirstText p t l).find? q).isSome := by
  induction l with
  | nil => simp at h
  | cons sh rest ih =>
    simp only [setFirstText]
    by_cases hp : p sh
    · rw [if_pos hp]
      by_cases hqsh : q sh
      · rw [List.find?_cons_of_pos _ (by rw [hq]; exact hqsh)]
        rfl
      · rw [List.find?_cons_of_neg _ (by rw [hq]; exact hqsh)]
        rw [List.find?_cons_of_neg _ hqsh] at h
        exact h
    · rw [if_neg hp]
      by_cases hqsh : q sh
      · rw [List.find?_cons_of_pos _ hqsh]
        rfl
      · rw [List.find?_cons_of_neg _ hqsh]
        rw [List.find?_cons_of_neg _ hqsh] at h
        exact ih h

theorem find?_setFirstText_self (p : Shape → Bool) (t : String) (l : List Shape)
    (hp : ∀ sh t2, p { sh with text := t2 } = p sh)
    (h : (l.find? p).isSome) :
    ∃ sh, (setFirstText p t l).find? p = some sh ∧ sh.text = t := by
  induction l with
  | nil => simp at h
  | cons sh rest ih =>
    by_cases hsh : p sh
    · refine ⟨{ sh with text := t }, ?_, rfl⟩
      simp only [setFirstText]
      rw [if_pos hsh]
      exact List.find?_cons_of_pos _ (by rw [hp]; exact hsh)
    · rw [List.find?_cons_of_neg _ hsh] at h
      obtain ⟨sh2, h1, h2⟩ := ih h
      refine ⟨sh2, ?_, h2⟩
      simp only [setFirstText]
      rw [if_neg hsh]
      rw [List.find?_cons_of_neg _ hsh]
      exact h1

theorem contentFrom_none (l : List Shape) (i : Nat) :
    contentFrom l none i =
      (l.filter (fun sh => sh.hasTextFrame)).map (fun sh => sh.text) := by
  induction l generalizing i with
  | nil => rfl
  | cons sh rest ih =>
    simp only [contentFrom, List.filter_cons]
    have : ((none : Option Nat) == some i) = false := rfl
    rw [this]
    cases hsh : sh.hasTextFrame <;> simp [ih]

theorem contentFrom_lt (l : List Shape) (i j : Nat) (h : j < i) :
    contentFrom l (some j) i =
      (l.filter (fun sh => sh.hasTextFrame)).map (fun sh => sh.text) := by
  induction l generalizing i with
  | nil => rfl
  | cons sh rest ih =>
    simp only [contentFrom, List.filter_cons]
    have hne : (some j == some i) = false := by
      have hji : (j == i) = false := by
        simp only [beq_eq_false_iff_ne]
        exact Nat.ne_of_lt h
      simpa using hji
    rw [hne]
    cases hsh : sh.hasTextFrame <;>
      simp [ih (i + 1) (Nat.lt_trans h (Nat.lt_succ_self i))]

theorem contentFrom_found (l : List Shape) (j i : Nat)
    (h : findTitleIdx l = some j) :
    contentFrom l (some (i + j)) i =
      ((l.eraseIdx j).filter (fun sh => sh.hasTextFrame)).map (fun sh => sh.text) := by
  induction l generalizing j i with
  | nil => simp [findTitleIdx] at h
  | cons sh rest ih =>
    by_cases hsh : sh.isTitle
    · have hj : j = 0 := by
        simp [findTitleIdx, hsh] at h
        omega
      subst hj
      simp only [Nat.add_zero, contentFrom, List.eraseIdx_cons_zero]
      have : (some i == some i) = true := by simp
      rw [this]
      simp only [Bool.not_true, Bool.and_false, if_false]
      exact contentFrom_lt rest (i + 1) i (Nat.lt_succ_self i)
    · simp only [findTitleIdx, hsh, if_false] at h
      obtain ⟨j2, hj2, rfl⟩ : ∃ j2, findTitleIdx rest = some j2 ∧ j = j2 + 1 := by
        cases hr : findTitleIdx rest with
        | none => rw [hr] at h; simp at h
        | some k => rw [hr] at h; simp at h; exact ⟨k, rfl, h.symm⟩
      simp only [contentFrom, List.eraseIdx_cons_succ, List.filter_cons]
      have hne : (some (i + (j2 + 1)) == some i) = false := by
        have hji : (i + (j2 + 1) == i) = false := by
          simp only [beq_eq_false_iff_ne]
          omega
        simp [hji]
      rw [hne]
      have harith : i + (j2 + 1) = (i + 1) + j2 := by omega
      rw [harith]
      cases hsh2 : sh.hasTextFrame <;> simp [ih j2 (i + 1) hj2]

theorem findTitleIdx_get? (l : List Shape) (j : Nat)
    (h : findTitleIdx l = some j) :
    l.get? j = l.find? (fun sh => sh.isTitle) := by
  induction l generalizing j with
  | nil => simp [findTitleIdx] at h
  | cons sh rest ih =>
    by_cases hsh : sh.isTitle
    · have hj : j = 0 := by simp [findTitleIdx, hsh] at h; omega
      subst hj
      rw [List.find?_cons_of_pos _ hsh]
      rfl
    · simp only [findTitleIdx, hsh, if_false] at h
      obtain ⟨j2, hj2, rfl⟩ : ∃ j2, findTitleIdx rest = some j2 ∧ j = j2 + 1 := by
        cases hr : findTitleIdx rest with
        | none => rw [hr] at h; simp at h
        | some k => rw [hr] at h; simp at h; exact ⟨k, rfl, h.symm⟩
      rw [List.find?_cons_of_neg _ hsh]
      exact ih j2 hj2

theorem findTitleIdx_none (l : List Shape)
    (h : findTitleIdx l = none) :
    l.find? (fun sh => sh.isTitle) = none := by
  induction l with
  | nil => rfl
  | cons sh rest ih =>
    by_cases hsh : sh.isTitle
    · simp [findTitleIdx, hsh] at h
    · simp only [findTitleIdx] at h
      rw [if_neg hsh, Option.map_eq_none'] at h
      rw [List.find?_cons_of_neg _ hsh]
      exact ih h

theorem length_extractFrom (i : Nat) (l : List Slide) :
    (extractFrom i l).length = l.length := by
  induction l generalizing i with
  | nil => rfl
  | cons s rest ih => simp [extractFrom, ih]

theorem get?_extractFrom (l : List Slide) (i k : Nat) (hk : k < l.length) :
    (extractFrom i l).get? k =
      some { slide_number := i + k + 1,
             title := slideTitleText (l.get ⟨k, hk⟩),
             content := slideContent (l.get ⟨k, hk⟩) } := by
  induction l generalizing i k with
  | nil => simp at hk
  | cons s rest ih =>
    cases k with
    | zero => rfl
    | succ k2 =>
      have hk2 : k2 < rest.length := by simpa using hk
      have := ih (i + 1) k2 hk2
      simp only [extractFrom, List.get?_cons_succ]
      rw [this]
      have : i + 1 + k2 + 1 = i + (k2 + 1) + 1 := by omega
      rw [this]
      rfl

theorem map_title_extractFrom (i : Nat) (l : List Slide) :
    (extractFrom i l).map (fun e => some e.title) =
      l.map (fun s => some (slideTitleText s)) := by
  induction l generalizing i with
  | nil => rfl
  | cons s rest ih => simp [extractFrom, ih]

theorem length_titledShapes (layout : Layout) (sd : SlideData) :
    (titledShapes layout sd).length = layout.placeholders.length := by
  cases hst : sd.title with
  | none => simp [titledShapes, hst]
  | some t =>
    simp only [titledShapes, hst]
    split
    · exact length_setFirstText _ _ _
    · rfl

theorem find1_titledShapes (layout : Layout) (sd : SlideData)
    (hph : (layout.placeholders.find? (fun sh => sh.phIdx == 1)).isSome) :
    ((titledShapes layout sd).find? (fun sh => sh.phIdx == 1)).isSome := by
  cases hst : sd.title with
  | none => simp only [titledShapes, hst]; exact hph
  | some t =>
    simp only [titledShapes, hst]
    split
    · exact find?_isSome_setFirstText _ _ t layout.placeholders (fun _ _ => rfl) hph
    · exact hph

theorem titledShapes_none (layout : Layout) (sd : SlideData) (h : sd.title = none) :
    titledShapes layout sd = layout.placeholders := by
  simp [titledShapes, h]

/-! Theorems settling the claims. -/

/-- C2: the Extractor returns one entry per slide in document order with
1-based slide numbers; the title is the text of the designated title region
when one exists and the empty string otherwise; the content is the ordered
text of every other text-bearing shape, the title region itself (the shape at
the title index, which is exactly the shape `slide.shapes.title` designates)
being excluded. -/
theorem extractor_contract (prs : List Slide) :
    (extractSlides prs).length = prs.length ∧
    (∀ i : Fin prs.length,
      (extractSlides prs).get? i.val =
        some { slide_number := i.val + 1,
               title := slideTitleText (prs.get i),
               content := slideContent (prs.get i) }) ∧
    (∀ s : Slide, ∀ sh : Shape, s.shapes.find? (fun x => x.isTitle) = some sh →
      slideTitleText s = sh.text) ∧
    (∀ s : Slide, s.shapes.find? (fun x => x.isTitle) = none →
      slideTitleText s = "") ∧
    (∀ s : Slide, ∀ j : Nat, findTitleIdx s.shapes = some j →
      s.shapes.get? j = s.shapes.find? (fun x => x.isTitle) ∧
      slideContent s =
        ((s.shapes.eraseIdx j).filter (fun sh => sh.hasTextFrame)).map
          (fun sh => sh.text)) ∧
    (∀ s : Slide, findTitleIdx s.shapes = none →
      slideContent s =
        (s.shapes.filter (fun sh => sh.hasTextFrame)).map (fun sh => sh.text)) := by
  refine ⟨length_extractFrom 0 prs, ?_, ?_, ?_, ?_, ?_⟩
  · intro i
    have := get?_extractFrom prs 0 i.val i.isLt
    simpa [extractSlides] using this
  · intro s sh h
    simp [slideTitleText, h]
  · intro s h
    simp [slideTitleText, h]
  · intro s j h
    refine ⟨findTitleIdx_get? s.shapes j h, ?_⟩
    have := contentFrom_found s.shapes j 0 h
    simpa [slideContent, h] using this
  · intro s h
    have := contentFrom_none s.shapes 0
    simpa [slideContent, h] using this

/-- C2 witness: instantiation on a concrete two-slide document whose first
slide carries a title shape and a non-text shape. -/
theorem extractor_contract_witness :
    findTitleIdx [⟨0, true, true, "T"⟩, ⟨1, false, true, "b"⟩, ⟨2, false, false, "n"⟩]
      = some 0 ∧
    slideContent ⟨[⟨0, true, true, "T"⟩, ⟨1, false, true, "b"⟩, ⟨2, false, false, "n"⟩]⟩ =
      ((([⟨0, true, true, "T"⟩, ⟨1, false, true, "b"⟩, ⟨2, false, false, "n"⟩] :
          List Shape).eraseIdx 0).filter (fun sh => sh.hasTextFrame)).map
        (fun sh => sh.text) :=
  ⟨by decide,
    ((extractor_contract []).2.2.2.2.1
      ⟨[⟨0, true, true, "T"⟩, ⟨1, false, true, "b"⟩, ⟨2, false, false, "n"⟩]⟩ 0
      (by decide)).2⟩

/-- C4: the layout selection chain attempts gallery index 1 when the gallery
has more than one layout and index 0 otherwise (including the empty-gallery
fallthrough, whose index 0 subscript then fails); the index 6 alternative sits
only in the branch where the index 0/1 reasoning has run out (an empty
gallery) and is guarded by a gallery of more than 6 layouts, so it is never
actually reached. -/
theorem layout_selection_chain :
    (∀ n : Nat, 1 < n → selectLayoutIdx n = 1) ∧
    (∀ n : Nat, ¬ 1 < n → selectLayoutIdx n = 0) ∧
    (∀ n : Nat, selectLayoutIdx n = 6 → ¬ 0 < n ∧ 6 < n) ∧
    (∀ (layouts : List Layout) (l : Layout), layouts.get? 1 = some l →
      selectLayout layouts = .ok l) ∧
    (selectLayout [] = .error "IndexError: list index out of range") := by
  refine ⟨?_, ?_, ?_, ?_, rfl⟩
  · intro n h
    simp [selectLayoutIdx, h]
  · intro n h
    rcases Nat.lt_or_ge n 1 with h0 | h1
    · have hn : n = 0 := by omega
      subst hn
      rfl
    · have hn : n = 1 := by omega
      subst hn
      rfl
  · intro n h
    by_cases h1 : 1 < n
    · simp [selectLayoutIdx, h1] at h
    · rcases Nat.lt_or_ge n 1 with h0 | hge
      · have hn : n = 0 := by omega
        subst hn
        simp [selectLayoutIdx] at h
      · have hn : n = 1 := by omega
        subst hn
        simp [selectLayoutIdx] at h
  · intro layouts l h
    have hlen : 1 < layouts.length := by
      rcases List.get?_eq_some.mp h with ⟨hlt, _⟩
      exact hlt
    simp only [selectLayout, selectLayoutIdx, hlen, if_true, h]

/-- C1: content lines are taken from `bullets` when present and non-empty,
else from `content` when present and non-empty, else no lines; and when lines
were computed and the new slide has more than one placeholder region (with the
idx 1 placeholder the code then looks up actually present), the content
region text is set to exactly those lines joined with newline separators. -/
theorem synthesizer_content_lines (layout : Layout) (sd : SlideData)
    (hn : 1 < layout.placeholders.length)
    (hph : (layout.placeholders.find? (fun sh => sh.phIdx == 1)).isSome) :
    (∀ bs, sd.bullets = some bs → bs ≠ [] → contentLines sd = bs) ∧
    (∀ cs, hasNonEmpty sd.bullets = false → sd.content = some cs → cs ≠ [] →
      contentLines sd = cs) ∧
    (hasNonEmpty sd.bullets = false → hasNonEmpty sd.content = false →
      contentLines sd = []) ∧
    (contentLines sd ≠ [] →
      ∃ s : Slide, buildSlide layout sd = .ok s ∧
        (s.shapes.find? (fun sh => sh.phIdx == 1)).map (fun sh => sh.text) =
          some (String.intercalate "\n" (contentLines sd))) := by
  refine ⟨?_, ?_, ?_, ?_⟩
  · intro bs hb hne
    cases bs with
    | nil => exact absurd rfl hne
    | cons a l => simp [contentLines, hasNonEmpty, hb]
  · intro cs hb hc hne
    cases cs with
    | nil => exact absurd rfl hne
    | cons a l =>
      simp only [contentLines]
      rw [hb]
      simp [hasNonEmpty, hc]
  · intro hb hc
    simp only [contentLines]
    rw [hb, hc]
    simp
  · intro hne
    have hlen1 : 1 < (titledShapes layout sd).length := by
      rw [length_titledShapes]
      exact hn
    have hfind1 : ((titledShapes layout sd).find? (fun sh => sh.phIdx == 1)).isSome :=
      find1_titledShapes layout sd hph
    obtain ⟨u, hu⟩ := Option.isSome_iff_exists.mp hfind1
    have hemp : (contentLines sd).isEmpty = false := by
      cases hcl : contentLines sd with
      | nil => exact absurd hcl hne
      | cons a l => simp
    obtain ⟨shc, hc1, hc2⟩ :=
      find?_setFirstText_self (fun sh => sh.phIdx == 1)
        (String.intercalate "\n" (contentLines sd)) (titledShapes layout sd)
        (fun _ _ => rfl) hfind1
    refine ⟨⟨setFirstText (fun sh => sh.phIdx == 1)
      (String.intercalate "\n" (contentLines sd)) (titledShapes layout sd)⟩, ?_, ?_⟩
    · simp only [buildSlide]
      rw [if_pos hlen1, hu, if_neg (by simp [hemp])]
    · simp only [hc1, hc2, Option.map_some']

/-- C1 witness: on a title+content layout, bullets `["a","b"]` with no content
give lines `["a","b"]` and a region text of `"a\nb"`; empty bullets with
content `["x"]` give lines `["x"]`. -/
theorem synthesizer_content_lines_witness :
    contentLines ⟨none, some ["a", "b"], none⟩ = ["a", "b"] ∧
    contentLines ⟨none, some [], some ["x"]⟩ = ["x"] ∧
    buildSlide ⟨[titlePh, bodyPh]⟩ ⟨none, some ["a", "b"], none⟩ =
      .ok ⟨[⟨0, true, true, ""⟩, ⟨1, false, true, "a\nb"⟩]⟩ ∧
    buildSlide ⟨[titlePh, bodyPh]⟩ ⟨none, some [], some ["x"]⟩ =
      .ok ⟨[⟨0, true, true, ""⟩, ⟨1, false, true, "x"⟩]⟩ :=
  ⟨(synthesizer_content_lines ⟨[titlePh, bodyPh]⟩ ⟨none, some ["a", "b"], none⟩
      (by decide) (by decide)).1 ["a", "b"] rfl (by decide),
   (synthesizer_content_lines ⟨[titlePh, bodyPh]⟩ ⟨none, some [], some ["x"]⟩
      (by decide) (by decide)).2.1 ["x"] (by decide) rfl (by decide),
   rfl, rfl⟩

/-- C4 witness: the default template gallery (11 layouts) selects index 1; a
one-layout gallery selects index 0; index 1 lookup drives `selectLayout`. -/
theorem layout_selection_chain_witness :
    selectLayoutIdx 11 = 1 ∧ selectLayoutIdx 1 = 0 ∧
    selectLayout [⟨[]⟩, ⟨[bodyPh]⟩] = .ok ⟨[bodyPh]⟩ :=
  ⟨layout_selection_chain.1 11 (by decide),
   layout_selection_chain.2.1 1 (by decide),
   layout_selection_chain.2.2.2.1 [⟨[]⟩, ⟨[bodyPh]⟩] ⟨[bodyPh]⟩ rfl⟩

/-- C3 counterexample: a malformed base64 body sent to the extract endpoint
(the base64 decoder raising, modelled by a failing decoder as `binascii` does
on bad padding) escapes the handler uncaught instead of producing the JSON
error payload, because `base64.b64decode` runs before the try block
(main.py line 18). -/
theorem extract_decode_failure_uncaught :
    extract_powerpoint
      (fun _ => (.error "binascii.Error: invalid base64" : Except String Unit))
      (fun _ => .ok ⟨[], []⟩) ⟨some "!!!"⟩ =
      .uncaught "binascii.Error: invalid base64" := rfl

/-- C3 amended: document parse failures on the extract endpoint and decode or
parse failures on the update endpoint yield the JSON error payload carrying
the failure description, with no partial results; but on the extract endpoint
a base64 decode failure happens before the exception guard and escapes the
handler uncaught instead. -/
theorem error_response_on_failure :
    (∀ (decode : String → Except String Document) (nd : Document)
        (ofile fn : Option String) (instr : Instructions) (e : String),
      isUpdateModeField ofile = true →
      decode (ofile.getD "") = .error e →
      update_powerpoint decode nd ⟨ofile, some instr, fn⟩ = .errorJson e) ∧
    (∀ (β : Type) (f : String → Except String β) (g : β → Except String Document)
        (s : String) (bs : β) (e : String),
      f s = .ok bs → g bs = .error e →
      extract_powerpoint f g ⟨some s⟩ = .errorJson e) ∧
    (∀ (β : Type) (f : String → Except String β) (g : β → Except String Document)
        (s e : String),
      f s = .error e →
      extract_powerpoint f g ⟨some s⟩ = .uncaught e) := by
  refine ⟨?_, ?_, ?_⟩
  · intro decode nd ofile fn instr e hmode hdec
    have h2 : updateCore decode nd ofile instr = .error e := by
      unfold updateCore
      rw [hmode, hdec]
      cases instr.slides <;> rfl
    simp only [update_powerpoint, h2]
  · intro β f g s bs e hf hg
    simp only [extract_powerpoint, hf, hg]
  · intro β f g s e hf
    simp only [extract_powerpoint, hf]

/-- C3 amended witness: concrete failing decoders on both endpoints. -/
theorem error_response_on_failure_witness :
    update_powerpoint (fun _ => .error "bad container") ⟨[], []⟩
      ⟨some "x", some ⟨none⟩, none⟩ = .errorJson "bad container" ∧
    extract_powerpoint (fun _ => (.ok () : Except String Unit))
      (fun _ => .error "bad container") ⟨some "s"⟩ = .errorJson "bad container" ∧
    extract_powerpoint (fun _ => (.error "bad b64" : Except String Unit))
      (fun _ => .ok ⟨[], []⟩) ⟨some "s"⟩ = .uncaught "bad b64" :=
  ⟨error_response_on_failure.1 (fun _ => .error "bad container") ⟨[], []⟩
      (some "x") none ⟨none⟩ "bad container" (by decide) rfl,
   error_response_on_failure.2.1 Unit (fun _ => .ok ())
      (fun _ => .error "bad container") "s" () "bad container" rfl rfl,
   error_response_on_failure.2.2 Unit (fun _ => .error "bad b64")
      (fun _ => .ok ⟨[], []⟩) "s" "bad b64" rfl⟩

/-- C6: in update mode every slide of the supplied document is preserved
unchanged and in order, and the slides generated from the outline are appended
strictly after them. -/
theorem update_mode_preserves_slides
    (decode : String → Except String Document) (nd : Document)
    (ofile fn : Option String) (sds : List SlideData)
    (orig : List Slide) (gal : List Layout) (ss : List Slide)
    (hmode : isUpdateModeField ofile = true)
    (hdec : decode (ofile.getD "") = .ok ⟨orig, gal⟩)
    (hsynth : synthSlides gal sds = .ok ss) :
    update_powerpoint decode nd ⟨ofile, some ⟨some sds⟩, fn⟩ =
      .ok (⟨orig ++ ss, gal⟩, outputFilename ⟨ofile, some ⟨some sds⟩, fn⟩) := by
  have h1 : updateCore decode nd ofile ⟨some sds⟩ =
      Except.bind (decode (ofile.getD "")) (fun prs =>
        Except.bind (synthSlides prs.layouts sds)
          (fun ns => .ok { prs with slides := prs.slides ++ ns })) := by
    unfold updateCore
    rw [hmode]
    rfl
  have h2 : updateCore decode nd ofile ⟨some sds⟩ = .ok ⟨orig ++ ss, gal⟩ := by
    rw [h1, hdec]
    show Except.bind (synthSlides gal sds) _ = _
    rw [hsynth]
    rfl
  simp only [update_powerpoint, h2]

/-- C6 witness: a one-slide original document and a one-entry outline. -/
theorem update_mode_preserves_slides_witness :
    update_powerpoint
      (fun _ => .ok ⟨[⟨[⟨0, true, true, "old"⟩]⟩], [⟨[titlePh, bodyPh]⟩, ⟨[titlePh, bodyPh]⟩]⟩)
      ⟨[], []⟩ ⟨some "QQ==", some ⟨some [⟨some "new", none, none⟩]⟩, some "out.pptx"⟩ =
      .ok (⟨[⟨[⟨0, true, true, "old"⟩]⟩, ⟨[⟨0, true, true, "new"⟩, ⟨1, false, true, ""⟩]⟩],
            [⟨[titlePh, bodyPh]⟩, ⟨[titlePh, bodyPh]⟩]⟩, "out.pptx") :=
  update_mode_preserves_slides
    (fun _ => .ok ⟨[⟨[⟨0, true, true, "old"⟩]⟩], [⟨[titlePh, bodyPh]⟩, ⟨[titlePh, bodyPh]⟩]⟩)
    ⟨[], []⟩ (some "QQ==") (some "out.pptx") [⟨some "new", none, none⟩]
    [⟨[⟨0, true, true, "old"⟩]⟩] [⟨[titlePh, bodyPh]⟩, ⟨[titlePh, bodyPh]⟩]
    [⟨[⟨0, true, true, "new"⟩, ⟨1, false, true, ""⟩]⟩]
    (by decide) rfl rfl

/-- C7 counterexample: the existing-document field holding the literal string
"null" is present, non-null (it is a string, not a JSON null, so it does not
surface as `none`) and non-blank, yet the handler selects create mode because
of the `original_file != "null"` comparison. -/
theorem mode_selection_null_string :
    specUpdateMode (some "null") = true ∧ isUpdateModeField (some "null") = false :=
  ⟨by decide, by decide⟩

/-- C7 amended: update mode is selected exactly when the existing-document
field is present, non-null, non-blank, and not the literal string "null";
the output filename defaults to "presentation.pptx" when `file_name` is
absent. -/
theorem mode_selection_and_default_filename :
    (∀ o : Option String, isUpdateModeField o = true ↔
      ∃ s, o = some s ∧ s ≠ "null" ∧ pyStrip s ≠ "") ∧
    (∀ b : UpdateBody, b.file_name = none → outputFilename b = "presentation.pptx") := by
  constructor
  · intro o
    cases o with
    | none => simp [isUpdateModeField]
    | some s =>
      simp only [isUpdateModeField, Bool.and_eq_true, Bool.not_eq_true', beq_eq_false_iff_ne]
      constructor
      · rintro ⟨⟨_, h2⟩, h3⟩
        exact ⟨s, rfl, h2, h3⟩
      · rintro ⟨s2, hs2, h2, h3⟩
        obtain rfl : s2 = s := by injection hs2.symm
        refine ⟨⟨?_, h2⟩, h3⟩
        intro hs
        subst hs
        exact h3 rfl
  · intro b h
    simp [outputFilename, h]

/-- C7 amended witness: a plain non-blank string selects update mode and an
absent filename defaults. -/
theorem mode_selection_and_default_filename_witness :
    isUpdateModeField (some "QQ==") = true ∧
    outputFilename ⟨none, none, none⟩ = "presentation.pptx" :=
  ⟨(mode_selection_and_default_filename.1 (some "QQ==")).mpr
      ⟨"QQ==", rfl, by decide, by decide⟩,
   mode_selection_and_default_filename.2 ⟨none, none, none⟩ rfl⟩

/-- C9: a request body that is valid JSON but lacks the required key raises
before the exception guard: the handler result is an uncaught KeyError and
never the JSON error payload, on both endpoints. -/
theorem missing_key_uncaught :
    (∀ (β : Type) (f : String → Except String β) (g : β → Except String Document),
      extract_powerpoint f g ⟨none⟩ = .uncaught "KeyError: file_data") ∧
    (∀ (decode : String → Except String Document) (nd : Document)
        (ofile fn : Option String),
      update_powerpoint decode nd ⟨ofile, none, fn⟩ =
        .uncaught "KeyError: update_instructions") ∧
    (∀ (β : Type) (f : String → Except String β) (g : β → Except String Document)
        (e : String), extract_powerpoint f g ⟨none⟩ ≠ .errorJson e) ∧
    (∀ (decode : String → Except String Document) (nd : Document)
        (ofile fn : Option String) (e : String),
      update_powerpoint decode nd ⟨ofile, none, fn⟩ ≠ .errorJson e) := by
  refine ⟨fun β f g => rfl, fun decode nd ofile fn => rfl, ?_, ?_⟩
  · intro β f g e h
    rw [show extract_powerpoint f g ⟨none⟩ = .uncaught "KeyError: file_data" from rfl] at h
    exact HandlerResult.noConfusion h
  · intro decode nd ofile fn e h
    rw [show update_powerpoint decode nd ⟨ofile, none, fn⟩ =
        .uncaught "KeyError: update_instructions" from rfl] at h
    exact HandlerResult.noConfusion h

/-- C10: when `update_instructions` has no "slides" key the appending loop is
skipped: update mode returns the decoded document with its slide set
unmodified, create mode returns a zero-slide document (the seeded default
slide having been removed). -/
theorem no_slides_key_returns_asis :
    (∀ (decode : String → Except String Document) (nd : Document)
        (ofile fn : Option String) (orig : List Slide) (gal : List Layout),
      isUpdateModeField ofile = true →
      decode (ofile.getD "") = .ok ⟨orig, gal⟩ →
      update_powerpoint decode nd ⟨ofile, some ⟨none⟩, fn⟩ =
        .ok (⟨orig, gal⟩, outputFilename ⟨ofile, some ⟨none⟩, fn⟩)) ∧
    (∀ (decode : String → Except String Document) (d : Slide)
        (ofile fn : Option String),
      isUpdateModeField ofile = false →
      update_powerpoint decode (defaultNewDoc d) ⟨ofile, some ⟨none⟩, fn⟩ =
        .ok (⟨[], defaultTemplateLayouts⟩, outputFilename ⟨ofile, some ⟨none⟩, fn⟩)) := by
  constructor
  · intro decode nd ofile fn orig gal hmode hdec
    have h2 : updateCore decode nd ofile ⟨none⟩ = .ok ⟨orig, gal⟩ := by
      unfold updateCore
      rw [hmode, hdec]
      rfl
    simp only [update_powerpoint, h2]
  · intro decode d ofile fn hmode
    have h2 : updateCore decode (defaultNewDoc d) ofile ⟨none⟩ =
        .ok ⟨[], defaultTemplateLayouts⟩ := by
      unfold updateCore
      rw [hmode]
      rfl
    simp only [update_powerpoint, h2]

/-- C10 witness: both modes on concrete inputs. -/
theorem no_slides_key_returns_asis_witness :
    update_powerpoint (fun _ => .ok ⟨[⟨[titlePh]⟩], [⟨[bodyPh]⟩]⟩) ⟨[], []⟩
      ⟨some "QQ==", some ⟨none⟩, none⟩ =
      .ok (⟨[⟨[titlePh]⟩], [⟨[bodyPh]⟩]⟩, "presentation.pptx") ∧
    update_powerpoint (fun _ => .error "x") (defaultNewDoc ⟨[titlePh]⟩)
      ⟨none, some ⟨none⟩, none⟩ =
      .ok (⟨[], defaultTemplateLayouts⟩, "presentation.pptx") :=
  ⟨no_slides_key_returns_asis.1 (fun _ => .ok ⟨[⟨[titlePh]⟩], [⟨[bodyPh]⟩]⟩)
      ⟨[], []⟩ (some "QQ==") none [⟨[titlePh]⟩] [⟨[bodyPh]⟩] (by decide) rfl,
   no_slides_key_returns_asis.2 (fun _ => .error "x") ⟨[titlePh]⟩ none none rfl⟩

theorem buildSlide_default_ok (sd : SlideData) (t : String) (ht : sd.title = some t) :
    ∃ b : Shape, buildSlide ⟨[titlePh, bodyPh]⟩ sd = .ok ⟨[⟨0, true, true, t⟩, b]⟩ ∧
      b.isTitle = false := by
  have hfind : ((([titlePh, bodyPh] : List Shape)).find?
      (fun sh => sh.isTitle)).isSome = true := rfl
  have hts : titledShapes ⟨[titlePh, bodyPh]⟩ sd = [⟨0, true, true, t⟩, bodyPh] := by
    simp only [titledShapes, ht, hfind, eq_self_iff_true, if_true]
    rfl
  cases hcl : contentLines sd with
  | nil =>
    refine ⟨bodyPh, ?_, rfl⟩
    simp only [buildSlide, hts, hcl]
    rfl
  | cons a l =>
    refine ⟨⟨1, false, true, String.intercalate "\n" (a :: l)⟩, ?_, rfl⟩
    simp only [buildSlide, hts, hcl]
    rfl

theorem slideTitleText_titled (t : String) (b : Shape) :
    slideTitleText ⟨[⟨0, true, true, t⟩, b]⟩ = t := by
  have hfind : List.find? (fun sh => sh.isTitle)
      [(⟨0, true, true, t⟩ : Shape), b] = some ⟨0, true, true, t⟩ :=
    List.find?_cons_of_pos _ rfl
  simp only [slideTitleText, hfind]

/-- C5: in create mode with a non-empty outline, the seeded default slide is
structurally removed before any outline slide is appended: the resulting
document consists exactly of the synthesized slides (the seeded slide `d`,
arbitrary here, never appears), and its first slide is built from the first
outline entry. -/
theorem create_mode_strips_default
    (decode : String → Except String Document) (d : Slide)
    (ofile fn : Option String) (sd : SlideData) (rest : List SlideData)
    (ss : List Slide)
    (hmode : isUpdateModeField ofile = false)
    (hsynth : synthSlides defaultTemplateLayouts (sd :: rest) = .ok ss) :
    update_powerpoint decode (defaultNewDoc d) ⟨ofile, some ⟨some (sd :: rest)⟩, fn⟩ =
      .ok (⟨ss, defaultTemplateLayouts⟩,
        outputFilename ⟨ofile, some ⟨some (sd :: rest)⟩, fn⟩) ∧
    (∃ s tl, buildSlide ⟨[titlePh, bodyPh]⟩ sd = .ok s ∧ ss = s :: tl) := by
  constructor
  · have h1 : updateCore decode (defaultNewDoc d) ofile ⟨some (sd :: rest)⟩ =
        Except.bind (synthSlides defaultTemplateLayouts (sd :: rest))
          (fun ns => .ok ⟨ns, defaultTemplateLayouts⟩) := by
      unfold updateCore
      rw [hmode]
      rfl
    have h2 : updateCore decode (defaultNewDoc d) ofile ⟨some (sd :: rest)⟩ =
        .ok ⟨ss, defaultTemplateLayouts⟩ := by
      rw [h1, hsynth]
      rfl
    simp only [update_powerpoint, h2]
  · have hunfold : synthSlides defaultTemplateLayouts (sd :: rest) =
        Except.bind (buildSlide ⟨[titlePh, bodyPh]⟩ sd)
          (fun s => Except.bind (synthSlides defaultTemplateLayouts rest)
            (fun tl => .ok (s :: tl))) := rfl
    rw [hunfold] at hsynth
    cases hb : buildSlide ⟨[titlePh, bodyPh]⟩ sd with
    | error e =>
      rw [hb] at hsynth
      exact Except.noConfusion hsynth
    | ok s =>
      rw [hb] at hsynth
      have hsynth2 : Except.bind (synthSlides defaultTemplateLayouts rest)
          (fun tl => Except.ok (s :: tl)) = .ok ss := hsynth
      cases hr : synthSlides defaultTemplateLayouts rest with
      | error e =>
        rw [hr] at hsynth2
        exact Except.noConfusion hsynth2
      | ok tl =>
        rw [hr] at hsynth2
        have hcons : Except.ok (s :: tl) = (Except.ok ss : Except String (List Slide)) :=
          hsynth2
        have : s :: tl = ss := by injection hcons
        exact ⟨s, tl, rfl, this.symm⟩

/-- C5 witness: create mode on a one-entry outline; the seeded default slide
(here carrying recognisable text) is absent from the output. -/
theorem create_mode_strips_default_witness :
    update_powerpoint (fun _ => .error "unused") (defaultNewDoc ⟨[⟨0, true, true, "SEEDED"⟩]⟩)
      ⟨none, some ⟨some [⟨some "Intro", some ["Point 1", "Point 2"], none⟩]⟩, none⟩ =
      .ok (⟨[⟨[⟨0, true, true, "Intro"⟩, ⟨1, false, true, "Point 1\nPoint 2"⟩]⟩],
        defaultTemplateLayouts⟩, "presentation.pptx") :=
  (create_mode_strips_default (fun _ => .error "unused") ⟨[⟨0, true, true, "SEEDED"⟩]⟩
    none none ⟨some "Intro", some ["Point 1", "Point 2"], none⟩ []
    [⟨[⟨0, true, true, "Intro"⟩, ⟨1, false, true, "Point 1\nPoint 2"⟩]⟩]
    rfl rfl).1

/-- C8: round-trip — running the Extractor on the document the Synthesizer
builds in create mode from an outline whose entries all carry titles yields
exactly those titles, in order. -/
theorem synth_extract_roundtrip (sds : List SlideData)
    (h : ∀ sd ∈ sds, sd.title ≠ none) :
    ∃ ss, synthSlides defaultTemplateLayouts sds = .ok ss ∧
      (extractSlides ss).map (fun e => some e.title) = sds.map (fun sd => sd.title) := by
  induction sds with
  | nil => exact ⟨[], rfl, rfl⟩
  | cons sd rest ih =>
    obtain ⟨ss, hss, hmap⟩ := ih (fun x hx => h x (List.mem_cons_of_mem sd hx))
    have hts : sd.title ≠ none := h sd (List.mem_cons_self sd rest)
    obtain ⟨t, ht⟩ : ∃ t, sd.title = some t := by
      cases hst : sd.title with
      | none => exact absurd hst hts
      | some t2 => exact ⟨t2, rfl⟩
    obtain ⟨b, hb, hbt⟩ := buildSlide_default_ok sd t ht
    refine ⟨⟨[⟨0, true, true, t⟩, b]⟩ :: ss, ?_, ?_⟩
    · have hunfold : synthSlides defaultTemplateLayouts (sd :: rest) =
          Except.bind (buildSlide ⟨[titlePh, bodyPh]⟩ sd)
            (fun s => Except.bind (synthSlides defaultTemplateLayouts rest)
              (fun tl => .ok (s :: tl))) := rfl
      rw [hunfold, hb, hss]
      rfl
    · show (extractFrom 0 (⟨[⟨0, true, true, t⟩, b]⟩ :: ss)).map (fun e => some e.title) = _
      rw [map_title_extractFrom]
      simp only [List.map_cons]
      rw [slideTitleText_titled]
      have hmap2 : ss.map (fun s => some (slideTitleText s)) =
          rest.map (fun x => x.title) := by
        rw [← map_title_extractFrom 0 ss]
        exact hmap
      rw [hmap2, ht]

/-- C8 witness: a two-entry outline round-trips its titles. -/
theorem synth_extract_roundtrip_witness :
    (∀ sd ∈ ([⟨some "A", some ["a"], none⟩, ⟨some "B", none, some ["c"]⟩] :
        List SlideData), sd.title ≠ none) ∧
    (∃ ss, synthSlides defaultTemplateLayouts
        [⟨some "A", some ["a"], none⟩, ⟨some "B", none, some ["c"]⟩] = .ok ss ∧
      (extractSlides ss).map (fun e => some e.title) = [some "A", some "B"]) :=
  ⟨by decide,
    synth_extract_roundtrip [⟨some "A", some ["a"], none⟩, ⟨some "B", none, some ["c"]⟩]
      (by decide)⟩

end PPmaker
